import Mathlib

/-
Verification of the obsidian-synapsis save-and-publish pipeline.

The Python sources are shallowly embedded as Lean definitions:
pure helpers become Lean functions, the filesystem becomes an explicit
association list from paths to text contents, the clock and the three
git child processes become explicit environment records, and raised
Python exceptions become `Except` values.  Definitions mirror the
source files (`services/file_service.py`, `services/git_service.py`,
`services/mode_service.py`, `config.py`, `controllers/save_controller.py`,
`controllers/ai_controller.py`, `main.py`) function by function.
-/

namespace Synapsis

/-- Embedding of `fastapi.HTTPException(status_code=..., detail=...)`. -/
structure HTTPError where
  status : Nat
  detail : String
  deriving DecidableEq, Repr

/-- Embedding of Python's substring containment on character lists:
`List.isPrefixOf pat l` checked at every suffix of the haystack. -/
def containsSeg (pat : List Char) : List Char → Bool
  | [] => List.isPrefixOf pat []
  | c :: cs => List.isPrefixOf pat (c :: cs) || containsSeg pat cs

/-- Embedding of the Python expression `pat in hay` on `str`. -/
def strContains (hay : String) (pat : String) : Bool :=
  containsSeg pat.data hay.data

/-- The filesystem state: an association list from path strings to the
text contents most recently written there (head entry wins, so a new
write at an existing path shadows, i.e. overwrites, the old one). -/
abbrev FileSystem := List (String × String)

/-- Writing a text file: `filepath.write_text(content, encoding="utf-8")`.
Both the write and the read-back below use the same UTF-8 text codec, so
file contents are modelled at the text level. -/
def writeText (fs : FileSystem) (p : String) (c : String) : FileSystem :=
  (p, c) :: fs

/-- Reading a text file back from the modelled filesystem. -/
def readText (fs : FileSystem) (p : String) : Option String :=
  fs.lookup p

namespace FileService

/-- Helper for the embedding of `pathlib.Path(...).name`: split a list of
characters at every `'/'`, returning the first raw segment and the list
of later raw segments. -/
def splitSlashAux : List Char → List Char × List (List Char)
  | [] => ([], [])
  | c :: cs =>
    let r := splitSlashAux cs
    if c = '/' then ([], r.1 :: r.2) else (c :: r.1, r.2)

/-- All raw `'/'`-separated segments of a character list, in order. -/
def splitSlash (cs : List Char) : List (List Char) :=
  (splitSlashAux cs).1 :: (splitSlashAux cs).2

/-- Inverse direction of `splitSlash`: re-join segments with `'/'`. -/
def joinSlash : List (List Char) → List Char
  | [] => []
  | [p] => p
  | p :: ps => p ++ '/' :: joinSlash ps

/-- POSIX path parsing keeps a segment exactly when it is non-empty and
not `"."` (embedding of `pathlib`'s component filter). -/
def keepPart (p : List Char) : Bool :=
  decide (p ≠ [] ∧ p ≠ ['.'])

/-- The retained components of `pathlib.PurePosixPath(s)`. -/
def pathParts (s : String) : List (List Char) :=
  (splitSlash s.data).filter keepPart

/-- Embedding of `pathlib.Path(s).name`: the last retained component,
or `""` when there is none. -/
def pathName (s : String) : String :=
  String.mk ((pathParts s).getLastD [])

/-- Detail string of the invalid-filename error in the source. -/
def invalidFilenameDetail : String := "無効なファイル名です"

/-- Embedding of `FileService.sanitize_filename` from
`services/file_service.py`: take `Path(filename).name` and reject the
result with HTTP 400 when it is empty. -/
def sanitize_filename (filename : String) : Except HTTPError String :=
  let safe_filename := pathName filename
  if safe_filename = "" then Except.error ⟨400, invalidFilenameDetail⟩
  else Except.ok safe_filename

/-- The local wall-clock time, abstracted as the six fields that
`strftime("%Y%m%d_%H%M%S")` reads. -/
structure LocalTime where
  year : Nat
  month : Nat
  day : Nat
  hour : Nat
  minute : Nat
  second : Nat
  deriving DecidableEq, Repr

/-- Zero-pad a numeric field to two digits, as `%m %d %H %M %S` do. -/
def pad2 (n : Nat) : String :=
  if n < 10 then "0" ++ toString n else toString n

/-- Zero-pad the year to four digits, as `%Y` does for years 1..9999. -/
def pad4 (n : Nat) : String :=
  if n < 10 then "000" ++ toString n
  else if n < 100 then "00" ++ toString n
  else if n < 1000 then "0" ++ toString n
  else toString n

/-- Embedding of `datetime.now().strftime("%Y%m%d_%H%M%S")`. -/
def formatTimestamp (t : LocalTime) : String :=
  pad4 t.year ++ pad2 t.month ++ pad2 t.day ++ "_" ++
    pad2 t.hour ++ pad2 t.minute ++ pad2 t.second

/-- Embedding of `FileService.generate_filename` from
`services/file_service.py`, with the current local time passed
explicitly.  Python's `if prefix:` is string truthiness, i.e. the
non-emptiness test. -/
def generate_filename (t : LocalTime) (pre : String) (extension : String) : String :=
  let timestamp := formatTimestamp t
  if pre ≠ "" then pre ++ "_" ++ timestamp ++ "." ++ extension
  else timestamp ++ "." ++ extension

/-- Embedding of `FileService.build_ai_response_content` from
`services/file_service.py`: the three concatenated f-strings of the
source, one parenthesised group per source line. -/
def build_ai_response_content (mode_name : String) (user_input : String)
    (ai_response : String) : String :=
  ("# " ++ mode_name ++ "\n\n") ++
  ("## 入力\n\n" ++ user_input ++ "\n\n") ++
  ("## AI回答\n\n" ++ ai_response ++ "\n")

/-- Embedding of `FileService.save_text_file` from
`services/file_service.py`.  `ioError = some e` models
`filepath.write_text` raising `OSError` with message `e`, which the
source converts to an HTTP 500; otherwise the write lands in the
filesystem. -/
def save_text_file (ioError : Option String) (fs : FileSystem)
    (filepath : String) (content : String) : Except HTTPError FileSystem :=
  match ioError with
  | some e => Except.error ⟨500, "ファイル保存に失敗: " ++ e⟩
  | none => Except.ok (writeText fs filepath content)

end FileService

/-- The three git child-process invocations that
`GitService.commit_and_push` can spawn, with the commit message it
passes on the command line. -/
inductive GitCmd where
  | add
  | commit (msg : String)
  | push
  deriving DecidableEq, Repr

/-- Observable behaviour of one spawned git child process:
its exit status, and the outcome of decoding its standard-error bytes
as UTF-8 when the code gets that far (`Except.error m` models
`stderr.decode("utf-8")` raising with message `m`). -/
structure ProcOutcome where
  returncode : Int
  stderrText : Except String String
  deriving Repr

/-- Environment of one `commit_and_push` call: what the clock and each
child process would do.  `Except.error m` at a step models that step
raising a Python exception whose `str` is `m` (for example
`asyncio.create_subprocess_exec` or `communicate` failing, or
`ZoneInfo`/`datetime` failing while the commit message is built). -/
structure GitWorld where
  nowE : Except String String
  add : Except String Int
  commit : Except String ProcOutcome
  push : Except String ProcOutcome

namespace GitService

/-- Embedding of the `try:` body of `GitService.commit_and_push` from
`services/git_service.py`, instrumented with the list of git commands
spawned so far.  A normal return carries the `(success, error)` pair and
the full spawn trace; `Except.error` carries a raised exception's
message and the trace up to that point. -/
def commitAndPushTry (w : GitWorld) :
    Except (String × List GitCmd) ((Bool × Option String) × List GitCmd) :=
  match w.nowE with
  | Except.error m => Except.error (m, [])
  | Except.ok ts =>
    let commit_message := "Synapsis: " ++ ts
    match w.add with
    | Except.error m => Except.error (m, [GitCmd.add])
    | Except.ok addRc =>
      if addRc ≠ 0 then
        Except.ok ((false, some "git add failed"), [GitCmd.add])
      else
        match w.commit with
        | Except.error m =>
          Except.error (m, [GitCmd.add, GitCmd.commit commit_message])
        | Except.ok c =>
          if c.returncode ≠ 0 then
            match c.stderrText with
            | Except.error m =>
              Except.error (m, [GitCmd.add, GitCmd.commit commit_message])
            | Except.ok stderr_text =>
              if strContains stderr_text "nothing to commit" then
                Except.ok ((true, none), [GitCmd.add, GitCmd.commit commit_message])
              else
                Except.ok ((false, some ("git commit failed: " ++ stderr_text)),
                  [GitCmd.add, GitCmd.commit commit_message])
          else
            match w.push with
            | Except.error m =>
              Except.error (m, [GitCmd.add, GitCmd.commit commit_message, GitCmd.push])
            | Except.ok p =>
              if p.returncode ≠ 0 then
                match p.stderrText with
                | Except.error m =>
                  Except.error (m,
                    [GitCmd.add, GitCmd.commit commit_message, GitCmd.push])
                | Except.ok stderr_text =>
                  Except.ok ((false, some ("git push failed: " ++ stderr_text)),
                    [GitCmd.add, GitCmd.commit commit_message, GitCmd.push])
              else
                Except.ok ((true, none),
                  [GitCmd.add, GitCmd.commit commit_message, GitCmd.push])

/-- Embedding of `GitService.commit_and_push`: the `try:` body above
wrapped by the source's `except Exception` clause, which converts any
raised exception into the pair `(False, "git operation error: ...")`.
The return type is a plain pair, so in the model the operation can
never propagate an exception to its caller. -/
def commit_and_push (w : GitWorld) : (Bool × Option String) × List GitCmd :=
  match commitAndPushTry w with
  | Except.ok r => r
  | Except.error (m, tr) => ((false, some ("git operation error: " ++ m)), tr)

end GitService

/-- Embedding of the `ModeConfig` pydantic model from
`models/responses.py`. -/
structure ModeConfig where
  id : String
  name : String
  prompt_template : String
  save_dir : String
  description : String
  deriving DecidableEq, Repr

namespace Config

/-- Embedding of `Config.get_mode_by_id` from `config.py`: scan the
loaded mode list in order and return the first entry whose `id`
matches, `none` on a miss. -/
def get_mode_by_id (modes : List ModeConfig) (mode_id : String) : Option ModeConfig :=
  modes.find? (fun m => m.id = mode_id)

end Config

namespace ModeService

/-- Embedding of `ModeService.get_mode_by_id` from
`services/mode_service.py`: a lookup miss becomes an HTTP 400 with the
source's detail string. -/
def get_mode_by_id (modes : List ModeConfig) (mode_id : String) :
    Except HTTPError ModeConfig :=
  match Config.get_mode_by_id modes mode_id with
  | none => Except.error ⟨400, "無効なモードID: " ++ mode_id⟩
  | some m => Except.ok m

end ModeService

namespace AIService

/-- Embedding of `AIService.build_prompt_from_template` from
`services/ai_service.py`: `template.format(content=content)`, modelled
as substitution of the single `\x7bcontent\x7d` replacement field (the
configuration invariant is that a prompt template contains exactly that
one substitution point). -/
def build_prompt_from_template (template : String) (content : String) : String :=
  template.replace "\x7bcontent\x7d" content

/-- Embedding of `AIService.ask` from `services/ai_service.py`:
`callModel` is the upstream chat-completion call, producing the answer
text or raising with message `m`; the source wraps any raised exception
into an HTTP 500 whose detail carries the diagnostic. -/
def ask (callModel : String → Except String String) (prompt : String) :
    Except HTTPError String :=
  match callModel prompt with
  | Except.ok r => Except.ok r
  | Except.error m => Except.error ⟨500, "AI処理中にエラーが発生しました: " ++ m⟩

end AIService

/-- Embedding of the `SaveRequest` pydantic model. -/
structure SaveRequest where
  filename : Option String
  content : String
  deriving DecidableEq, Repr

/-- Embedding of the `SaveResponse` pydantic model. -/
structure SaveResponse where
  success : Bool
  filepath : String
  message : String
  git_pushed : Bool
  git_error : Option String
  deriving DecidableEq, Repr

/-- Embedding of the `AskAIRequest` pydantic model (the `mode_id`
default `"general"` is applied by the validation layer, so it is an
explicit field here). -/
structure AskAIRequest where
  content : String
  mode_id : String
  filename : Option String
  deriving DecidableEq, Repr

/-- Embedding of the `AskAIResponse` pydantic model. -/
structure AskAIResponse where
  success : Bool
  ai_response : String
  filepath : String
  message : String
  git_pushed : Bool
  git_error : Option String
  deriving DecidableEq, Repr

/-- The managed data root `Config.DATA_DIR`, as a path string; path
joining `a / b` is modelled as `a ++ "/" ++ b` (every name joined on
the right is a sanitized or generated file name, never absolute). -/
def DATA_DIR : String := "data"

/-- Environment of one `POST /save` call handled by
`controllers/save_controller.py`: the local clock, whether
`write_text` raises `OSError` (with which message), the behaviour of
the git child processes, and the filesystem before the call. -/
structure SaveEnv where
  now : FileService.LocalTime
  writeError : Option String
  git : GitWorld
  fs : FileSystem

/-- Filename resolution step of the `/save` handler: Python's
`if request.filename:` is truthiness, so `none` and `some ""` both fall
back to the timestamp name, and a non-empty caller name is sanitized. -/
def resolveSaveFilename (req : SaveRequest) (env : SaveEnv) : Except HTTPError String :=
  match req.filename with
  | some f =>
    if f ≠ "" then FileService.sanitize_filename f
    else Except.ok (FileService.generate_filename env.now "" "md")
  | none => Except.ok (FileService.generate_filename env.now "" "md")

/-- Embedding of the `POST /save` handler `save_file` from
`controllers/save_controller.py`: resolve the filename, write the
content under `DATA_DIR`, run the publish pipeline, and fold its
outcome into the success response.  An HTTP error raised by a step
aborts the handler with that error. -/
def save_file (req : SaveRequest) (env : SaveEnv) :
    Except HTTPError (SaveResponse × FileSystem) :=
  match resolveSaveFilename req env with
  | Except.error e => Except.error e
  | Except.ok filename =>
    let filepath := DATA_DIR ++ "/" ++ filename
    match FileService.save_text_file env.writeError env.fs filepath req.content with
    | Except.error e => Except.error e
    | Except.ok fs2 =>
      let g := (GitService.commit_and_push env.git).1
      Except.ok
        ({ success := true
           filepath := filepath
           message := "ファイルを保存しました: " ++ filename
           git_pushed := g.1
           git_error := g.2 }, fs2)

/-- Side effects of one `/ask-ai` call that claim C6 observes: whether
the upstream language-model API was called and whether a file write was
performed. -/
structure AskEffects where
  upstreamCalled : Bool
  fileWritten : Bool
  deriving DecidableEq, Repr

/-- Environment of one `POST /ask-ai` call handled by
`controllers/ai_controller.py`: the upstream model call, the local
clock, the `write_text` outcome, the git child processes, and the
filesystem before the call. -/
structure AskEnv where
  upstream : String → Except String String
  now : FileService.LocalTime
  writeError : Option String
  git : GitWorld
  fs : FileSystem

/-- Embedding of the `POST /ask-ai` handler `ask_ai` from
`controllers/ai_controller.py`, instrumented with the observable side
effects.  Steps run in source order: mode lookup, prompt construction,
upstream call, filename resolution, formatting, file write, publish. -/
def ask_ai (modes : List ModeConfig) (req : AskAIRequest) (env : AskEnv) :
    Except HTTPError (AskAIResponse × FileSystem) × AskEffects :=
  match ModeService.get_mode_by_id modes req.mode_id with
  | Except.error e => (Except.error e, ⟨false, false⟩)
  | Except.ok mode =>
    let prompt := AIService.build_prompt_from_template mode.prompt_template req.content
    match AIService.ask env.upstream prompt with
    | Except.error e => (Except.error e, ⟨true, false⟩)
    | Except.ok ai_response =>
      let filenameE : Except HTTPError String :=
        match req.filename with
        | some f =>
          if f ≠ "" then FileService.sanitize_filename f
          else Except.ok (FileService.generate_filename env.now mode.id "md")
        | none => Except.ok (FileService.generate_filename env.now mode.id "md")
      match filenameE with
      | Except.error e => (Except.error e, ⟨true, false⟩)
      | Except.ok filename =>
        let filepath := DATA_DIR ++ "/" ++ mode.save_dir ++ "/" ++ filename
        let content_to_save :=
          FileService.build_ai_response_content mode.name req.content ai_response
        match FileService.save_text_file env.writeError env.fs filepath content_to_save with
        | Except.error e => (Except.error e, ⟨true, false⟩)
        | Except.ok fs2 =>
          let g := (GitService.commit_and_push env.git).1
          (Except.ok
            ({ success := true
               ai_response := ai_response
               filepath := filepath
               message := "AI回答を保存しました: " ++ mode.name ++ " / " ++ filename
               git_pushed := g.1
               git_error := g.2 }, fs2), ⟨true, true⟩)

namespace Main

/-- Python exception values that can cross the `try:` boundary of the
monolithic `main.py` `ask_ai` handler: either a `fastapi.HTTPException`
or some other exception carrying its `str`. -/
inductive PyExc where
  | http (e : HTTPError)
  | other (msg : String)
  deriving DecidableEq, Repr

/-- Embedding of Python `str(e)` on those exceptions; for
`HTTPException`, Starlette renders `f"\x7bstatus_code\x7d: \x7bdetail\x7d"`. -/
def excStr : PyExc → String
  | PyExc.http e => toString e.status ++ ": " ++ e.detail
  | PyExc.other m => m

/-- Environment of one `POST /ask-ai` call handled by the monolithic
`main.py` variant: the loaded mode configuration (modes plus default
mode id) if any, the upstream model call, the local clock, the
`write_text` outcome, and the filesystem before the call. -/
structure MainAskEnv where
  modes_config : Option (List ModeConfig × String)
  upstream : String → Except String String
  now : FileService.LocalTime
  writeError : Option String
  fs : FileSystem

/-- Embedding of the `try:` body of the `main.py` `ask_ai` handler
(lines 614-656): prompt construction, upstream call, filename
resolution with the inline timestamp default, the in-try sanitization
(whose empty-name rejection is raised as an `HTTPException` inside the
`try:` block), formatting, and the write.  This variant sets no git
fields (they keep their pydantic defaults) and runs no publish step. -/
def askAiTry (mode : ModeConfig) (req : AskAIRequest) (env : MainAskEnv) :
    Except PyExc (AskAIResponse × FileSystem) :=
  let prompt := AIService.build_prompt_from_template mode.prompt_template req.content
  match env.upstream prompt with
  | Except.error m => Except.error (PyExc.other m)
  | Except.ok ai_response =>
    let filename :=
      match req.filename with
      | some f =>
        if f ≠ "" then f
        else mode.id ++ "_" ++ FileService.formatTimestamp env.now ++ ".md"
      | none => mode.id ++ "_" ++ FileService.formatTimestamp env.now ++ ".md"
    let safe_filename := FileService.pathName filename
    if safe_filename = "" then
      Except.error (PyExc.http ⟨400, FileService.invalidFilenameDetail⟩)
    else
      let filepath := DATA_DIR ++ "/" ++ mode.save_dir ++ "/" ++ safe_filename
      let content_to_save :=
        FileService.build_ai_response_content mode.name req.content ai_response
      match env.writeError with
      | some e => Except.error (PyExc.other e)
      | none =>
        Except.ok
          ({ success := true
             ai_response := ai_response
             filepath := filepath
             message := "AI回答を保存しました: " ++ mode.name ++ " / " ++ safe_filename
             git_pushed := false
             git_error := none }, writeText env.fs filepath content_to_save)

/-- Embedding of the monolithic `main.py` `ask_ai` handler: the
registry check and mode lookup run outside the `try:` block, and the
`except Exception` clause re-raises every caught exception — including
an in-try `HTTPException` — as an HTTP 500 whose detail wraps the
original exception's `str`. -/
def ask_ai (req : AskAIRequest) (env : MainAskEnv) :
    Except HTTPError (AskAIResponse × FileSystem) :=
  match env.modes_config with
  | none => Except.error ⟨500, "モード設定が読み込まれていません"⟩
  | some (modes, _dflt) =>
    match Config.get_mode_by_id modes req.mode_id with
    | none => Except.error ⟨400, "無効なモードID: " ++ req.mode_id⟩
    | some mode =>
      match askAiTry mode req env with
      | Except.ok r => Except.ok r
      | Except.error e =>
        Except.error ⟨500, "AI処理中にエラーが発生しました: " ++ excStr e⟩

end Main

/-- Fixture: a concrete local time used as clock input by witnesses. -/
def sampleTime : FileService.LocalTime := ⟨2024, 1, 2, 3, 4, 5⟩

/-- Fixture: a git environment whose stage step exits non-zero, making
the publish pipeline report `git add failed`. -/
def addFailGit : GitWorld :=
  ⟨Except.ok "2024-01-02 03:04:05", Except.ok 1,
   Except.ok ⟨0, Except.ok ""⟩, Except.ok ⟨0, Except.ok ""⟩⟩

/-- Fixture: a git environment where staging succeeds and the commit
child process exits 1 with the usual clean-tree diagnostic. -/
def nothingToCommitGit : GitWorld :=
  ⟨Except.ok "2024-01-02 03:04:05", Except.ok 0,
   Except.ok ⟨1, Except.ok "nothing to commit, working tree clean"⟩,
   Except.ok ⟨0, Except.ok ""⟩⟩

/-- Fixture: a git environment whose clock raises before any child
process is spawned. -/
def raisingGit : GitWorld :=
  ⟨Except.error "boom", Except.ok 0,
   Except.ok ⟨0, Except.ok ""⟩, Except.ok ⟨0, Except.ok ""⟩⟩

/-- Fixture: a `/save` request with a caller-supplied clean filename. -/
def sampleSaveReq : SaveRequest := ⟨some "note.md", "hello"⟩

/-- Fixture: a `/save` environment where the write succeeds but the
publish pipeline fails at the stage step, over an empty data root. -/
def sampleSaveEnv : SaveEnv := ⟨sampleTime, none, addFailGit, []⟩

/-- Fixture: a loaded mode, with the canonical single-field template. -/
def generalMode : ModeConfig :=
  ⟨"general", "一般", "\x7bcontent\x7d", "general", "一般的な質問モード"⟩

/-- Fixture: an `/ask-ai` environment whose upstream model call
answers normally. -/
def sampleAskEnv : AskEnv :=
  ⟨fun _ => Except.ok "answer", sampleTime, none, addFailGit, []⟩

/-- Fixture: an `/ask-ai` request naming a mode id that is not loaded. -/
def unknownModeReq : AskAIRequest := ⟨"q", "unknown", none⟩

/-- Fixture: an `/ask-ai` request whose caller-supplied filename `"."`
is truthy but sanitizes to the empty string. -/
def emptyNameReq : AskAIRequest := ⟨"q", "general", some "."⟩

/-- Fixture: a monolithic-variant environment with one loaded mode and
a normally answering upstream call. -/
def sampleMainEnv : Main.MainAskEnv :=
  ⟨some ([generalMode], "general"), fun _ => Except.ok "answer", sampleTime, none, []⟩

/-- No segment produced by `splitSlashAux` contains the separator. -/
theorem splitSlashAux_no_slash (cs : List Char) :
    '/' ∉ (FileService.splitSlashAux cs).1 ∧
    ∀ p ∈ (FileService.splitSlashAux cs).2, '/' ∉ p := by
  induction cs with
  | nil => simp [FileService.splitSlashAux]
  | cons c cs ih =>
    by_cases hc : c = '/'
    · simp only [FileService.splitSlashAux, hc, if_pos rfl]
      constructor
      · simp
      · intro p hp
        rcases List.mem_cons.mp hp with h1 | h2
        · exact h1 ▸ ih.1
        · exact ih.2 p h2
    · simp only [FileService.splitSlashAux, if_neg hc]
      refine ⟨?_, ih.2⟩
      intro hmem
      rcases List.mem_cons.mp hmem with h1 | h2
      · exact hc h1.symm
      · exact ih.1 h2

/-- No segment produced by `splitSlash` contains the separator. -/
theorem splitSlash_no_slash (cs : List Char) :
    ∀ p ∈ FileService.splitSlash cs, '/' ∉ p := by
  intro p hp
  rcases List.mem_cons.mp hp with h1 | h2
  · exact h1 ▸ (splitSlashAux_no_slash cs).1
  · exact (splitSlashAux_no_slash cs).2 p h2

/-- Joining the segments of `splitSlash` with `'/'` recovers the input:
the segments really are a decomposition of the original string. -/
theorem joinSlash_splitSlash (cs : List Char) :
    FileService.joinSlash (FileService.splitSlash cs) = cs := by
  induction cs with
  | nil => rfl
  | cons c cs ih =>
    rcases haux : FileService.splitSlashAux cs with ⟨p, ps⟩
    rw [FileService.splitSlash, haux] at ih
    by_cases hc : c = '/'
    · simp only [FileService.splitSlash, FileService.splitSlashAux, haux, hc, if_pos rfl]
      simpa [FileService.joinSlash] using ih
    · simp only [FileService.splitSlash, FileService.splitSlashAux, haux, if_neg hc]
      cases ps with
      | nil => simpa [FileService.joinSlash] using ih
      | cons q qs =>
        simp only [FileService.joinSlash] at ih ⊢
        simp [← ih]

/-- The default-carrying last element of a non-empty list is a member. -/
theorem getLastD_mem {α : Type} (l : List α) (d : α) (h : l ≠ []) :
    l.getLastD d ∈ l := by
  cases l with
  | nil => exact absurd rfl h
  | cons a l2 =>
    simp only [List.getLastD]
    exact List.getLast_mem _

/-- Claim C4: for every caller-supplied filename, `sanitize_filename`
either fails with the HTTP 400 invalid-filename error or returns
exactly the final path segment of the input (`pathName`, the embedding
of `Path(filename).name`, whose segments reassemble to the input via
`joinSlash`); a returned string never contains a path separator, and
when the final segment is empty the operation fails. -/
theorem sanitize_filename_spec (s : String) :
    FileService.joinSlash (FileService.splitSlash s.data) = s.data
    ∧ (∀ r, FileService.sanitize_filename s = Except.ok r →
        r = FileService.pathName s ∧ r ≠ "" ∧ '/' ∉ r.data)
    ∧ (FileService.pathName s = "" →
        FileService.sanitize_filename s =
          Except.error ⟨400, FileService.invalidFilenameDetail⟩) := by
  refine ⟨joinSlash_splitSlash s.data, ?_, ?_⟩
  · intro r hr
    by_cases hempty : FileService.pathName s = ""
    · simp [FileService.sanitize_filename, hempty] at hr
    · simp [FileService.sanitize_filename, hempty] at hr
      subst hr
      refine ⟨rfl, hempty, ?_⟩
      by_cases hparts : FileService.pathParts s = []
      · exact absurd (by simp [FileService.pathName, hparts]) hempty
      · have hmem : (FileService.pathParts s).getLastD [] ∈ FileService.pathParts s :=
          getLastD_mem _ _ hparts
        have hmem2 : (FileService.pathParts s).getLastD [] ∈
            FileService.splitSlash s.data :=
          List.mem_of_mem_filter hmem
        exact splitSlash_no_slash s.data _ hmem2
  · intro hempty
    simp [FileService.sanitize_filename, hempty]

/-- Witness for claim C4 at the concrete inputs `"dir/b.md"` (accepted,
stripped to its final segment) and `"."` (rejected with HTTP 400). -/
theorem sanitize_filename_spec_witness :
    ("b.md" = FileService.pathName "dir/b.md" ∧ "b.md" ≠ ""
      ∧ '/' ∉ ("b.md" : String).data)
    ∧ FileService.sanitize_filename "." =
        Except.error ⟨400, FileService.invalidFilenameDetail⟩ :=
  ⟨(sanitize_filename_spec "dir/b.md").2.1 "b.md" rfl,
   (sanitize_filename_spec ".").2.2 rfl⟩

/-- Counterexample for claim C5: the caller-supplied filename `".."`
does not fail with the invalid-filename error — `Path("..").name` is
`".."`, which is non-empty, so sanitization returns it unchanged. -/
theorem sanitize_filename_dotdot :
    FileService.sanitize_filename ".." = Except.ok ".." := rfl

/-- Amended claim C5: at the handlers' filename-resolution step, a
caller-supplied `"."` — or any path all of whose segments are empty or
`"."`, such as `"/"` — fails with the HTTP 400 invalid-filename error;
a caller-supplied `""` is treated as absent by the handlers'
truthiness check, so resolution instead succeeds with the generated
timestamp name; `".."` is resolved to `".."` unchanged; and a pure
directory path with a named final component, such as `"subdir/"`,
resolves to that component instead of being rejected. -/
theorem resolve_filename_edge_cases (env : SaveEnv) (c : String) :
    resolveSaveFilename ⟨some "", c⟩ env =
        Except.ok (FileService.generate_filename env.now "" "md")
    ∧ resolveSaveFilename ⟨some ".", c⟩ env =
        Except.error ⟨400, FileService.invalidFilenameDetail⟩
    ∧ resolveSaveFilename ⟨some "/", c⟩ env =
        Except.error ⟨400, FileService.invalidFilenameDetail⟩
    ∧ resolveSaveFilename ⟨some "..", c⟩ env = Except.ok ".."
    ∧ resolveSaveFilename ⟨some "subdir/", c⟩ env = Except.ok "subdir" :=
  ⟨rfl, rfl, rfl, rfl, rfl⟩

/-- Claim C7: the question-answer formatter returns exactly the
Markdown document `"# <mode name>\n\n## 入力\n\n<user input>\n\n##
AI回答\n\n<model output>\n"`, bit for bit, for every choice of the
three fields. -/
theorem build_ai_response_content_exact (n i o : String) :
    FileService.build_ai_response_content n i o =
      "# " ++ n ++ "\n\n## 入力\n\n" ++ i ++ "\n\n## AI回答\n\n" ++ o ++ "\n" := by
  apply String.ext
  simp only [FileService.build_ai_response_content, String.data_append, List.append_assoc]
  rfl

/-- Claim C8: when the caller supplies no filename, the generated name
is `<prefix>_<timestamp>.md` for a non-empty prefix and plain
`<timestamp>.md`, with no separator, for the empty prefix, where the
timestamp is the embedding of `strftime("%Y%m%d_%H%M%S")` on the local
time. -/
theorem generate_filename_spec (t : FileService.LocalTime) (pre : String) :
    (pre ≠ "" →
      FileService.generate_filename t pre "md" =
        pre ++ "_" ++ FileService.formatTimestamp t ++ ".md")
    ∧ FileService.generate_filename t "" "md" =
        FileService.formatTimestamp t ++ ".md" := by
  have hmd : (".md" : String) = "." ++ "md" := rfl
  constructor
  · intro h
    rw [hmd]
    simp [FileService.generate_filename, h, String.append_assoc]
  · rw [hmd]
    simp [FileService.generate_filename, String.append_assoc]

/-- Witness for claim C8 at the prefix `"general"` and a concrete
local time. -/
theorem generate_filename_spec_witness :
    FileService.generate_filename sampleTime "general" "md" =
      "general" ++ "_" ++ FileService.formatTimestamp sampleTime ++ ".md" :=
  (generate_filename_spec sampleTime "general").1 (by decide)

/-- Claim C9: a successful write by `save_text_file` stores exactly the
content passed in at the resolved path, shadowing (overwriting) any
prior content there, and a read of that same path afterwards yields
that content verbatim; other paths are untouched. -/
theorem save_text_file_roundtrip (fs : FileSystem) (p c : String) :
    FileService.save_text_file none fs p c = Except.ok (writeText fs p c)
    ∧ readText (writeText fs p c) p = some c
    ∧ ∀ q, q ≠ p → readText (writeText fs p c) q = readText fs q := by
  refine ⟨rfl, ?_, ?_⟩
  · simp [readText, writeText, List.lookup]
  · intro q hq
    have hbeq : (q == p) = false := beq_eq_false_iff_ne.mpr hq
    simp [readText, writeText, List.lookup, hbeq]

/-- Witness for claim C9: overwriting an existing file and reading it
back yields the new content, and an unrelated path is unaffected. -/
theorem save_text_file_roundtrip_witness :
    readText (writeText [("data/a.md", "old")] "data/a.md" "hello") "data/a.md" = some "hello"
    ∧ readText (writeText [("data/a.md", "old")] "data/a.md" "hello") "data/b.md" = none := by
  have h := save_text_file_roundtrip [("data/a.md", "old")] "data/a.md" "hello"
  exact ⟨h.2.1, (h.2.2 "data/b.md" (by decide)).trans (by rfl)⟩

/-- Claim C2: when the stage step succeeds and the commit child
process exits non-zero with diagnostic output containing
`"nothing to commit"`, the publish operation returns `(true, none)`
and never spawns the push step. -/
theorem commit_and_push_nothing_to_commit (w : GitWorld) (ts : String)
    (c : ProcOutcome) (stx : String)
    (hnow : w.nowE = Except.ok ts) (hadd : w.add = Except.ok 0)
    (hc : w.commit = Except.ok c) (hrc : c.returncode ≠ 0)
    (hst : c.stderrText = Except.ok stx)
    (hsub : strContains stx "nothing to commit" = true) :
    (GitService.commit_and_push w).1 = (true, none)
    ∧ GitCmd.push ∉ (GitService.commit_and_push w).2 := by
  unfold GitService.commit_and_push GitService.commitAndPushTry
  rw [hnow, hadd, hc]
  simp [hrc, hst, hsub]

/-- Witness for claim C2 at the concrete clean-tree git environment. -/
theorem commit_and_push_nothing_to_commit_witness :
    (GitService.commit_and_push nothingToCommitGit).1 = (true, none)
    ∧ GitCmd.push ∉ (GitService.commit_and_push nothingToCommitGit).2 :=
  commit_and_push_nothing_to_commit nothingToCommitGit "2024-01-02 03:04:05"
    ⟨1, Except.ok "nothing to commit, working tree clean"⟩
    "nothing to commit, working tree clean" rfl rfl rfl (by decide) rfl (by decide)

/-- Claim C3: the publish operation is total over its outcomes — its
return type is a plain pair, and whenever the embedded `try:` body
raises with message `m`, the operation returns
`(false, "git operation error: " ++ m)` instead of propagating. -/
theorem commit_and_push_wraps_exceptions (w : GitWorld) (m : String) (tr : List GitCmd)
    (h : GitService.commitAndPushTry w = Except.error (m, tr)) :
    GitService.commit_and_push w = ((false, some ("git operation error: " ++ m)), tr) := by
  simp [GitService.commit_and_push, h]

/-- Witness for claim C3 at a git environment whose clock raises. -/
theorem commit_and_push_wraps_exceptions_witness :
    GitService.commit_and_push raisingGit =
      ((false, some ("git operation error: " ++ "boom")), []) :=
  commit_and_push_wraps_exceptions raisingGit "boom" [] rfl

/-- Claim C1: for every `/save` request whose filename resolves and
whose file write succeeds, the handler returns the success response
with `success = true` no matter what the publish pipeline does; the
publish outcome appears only in the `git_pushed` and `git_error`
fields, never as an HTTP error. -/
theorem save_file_success_decoupled (req : SaveRequest) (env : SaveEnv) (fn : String)
    (hfn : resolveSaveFilename req env = Except.ok fn)
    (hw : env.writeError = none) :
    save_file req env = Except.ok
      ({ success := true
         filepath := DATA_DIR ++ "/" ++ fn
         message := "ファイルを保存しました: " ++ fn
         git_pushed := (GitService.commit_and_push env.git).1.1
         git_error := (GitService.commit_and_push env.git).1.2 },
       writeText env.fs (DATA_DIR ++ "/" ++ fn) req.content) := by
  simp [save_file, hfn, FileService.save_text_file, hw]

/-- Witness for claim C1: a concrete save whose publish step fails at
`git add` still returns `success = true`, with the failure folded into
the git fields. -/
theorem save_file_success_decoupled_witness :
    save_file sampleSaveReq sampleSaveEnv = Except.ok
      ({ success := true
         filepath := "data/note.md"
         message := "ファイルを保存しました: note.md"
         git_pushed := false
         git_error := some "git add failed" }, [("data/note.md", "hello")]) := by
  have h := save_file_success_decoupled sampleSaveReq sampleSaveEnv "note.md" rfl rfl
  exact h.trans (by rfl)

/-- Claim C6: an `/ask-ai` request whose `mode_id` matches no loaded
mode is rejected with HTTP 400, and neither the upstream model call
nor any file write is performed. -/
theorem ask_ai_unknown_mode (modes : List ModeConfig) (req : AskAIRequest) (env : AskEnv)
    (h : ∀ m ∈ modes, m.id ≠ req.mode_id) :
    ask_ai modes req env =
      (Except.error ⟨400, "無効なモードID: " ++ req.mode_id⟩, ⟨false, false⟩) := by
  have hfind : Config.get_mode_by_id modes req.mode_id = none := by
    rw [Config.get_mode_by_id, List.find?_eq_none]
    intro m hm
    simpa using h m hm
  simp [ask_ai, ModeService.get_mode_by_id, hfind]

/-- Witness for claim C6 at a registry holding only `"general"` and a
request for mode `"unknown"`. -/
theorem ask_ai_unknown_mode_witness :
    ask_ai [generalMode] unknownModeReq sampleAskEnv =
      (Except.error ⟨400, "無効なモードID: " ++ "unknown"⟩, ⟨false, false⟩) :=
  ask_ai_unknown_mode [generalMode] unknownModeReq sampleAskEnv (by decide)

/-- Claim C10: in the monolithic `main.py` `/ask-ai` handler, a
caller-supplied filename that sanitizes to the empty string makes the
in-`try` HTTP 400 be caught by the catch-all and re-raised as an HTTP
500 whose detail wraps the original error, so the endpoint returns
500, not 400. -/
theorem main_ask_ai_invalid_filename_500 (req : AskAIRequest) (env : Main.MainAskEnv)
    (modes : List ModeConfig) (dflt : String) (mode : ModeConfig)
    (f : String) (ans : String)
    (hcfg : env.modes_config = some (modes, dflt))
    (hmode : Config.get_mode_by_id modes req.mode_id = some mode)
    (hup : env.upstream
        (AIService.build_prompt_from_template mode.prompt_template req.content) =
      Except.ok ans)
    (hf : req.filename = some f) (hfne : f ≠ "")
    (hempty : FileService.pathName f = "") :
    Main.ask_ai req env =
      Except.error ⟨500, "AI処理中にエラーが発生しました: 400: 無効なファイル名です"⟩ := by
  simp [Main.ask_ai, Main.askAiTry, hcfg, hmode, hup, hf, hfne, hempty,
    Main.excStr, FileService.invalidFilenameDetail]
  rfl

/-- Witness for claim C10 at the concrete filename `"."`. -/
theorem main_ask_ai_invalid_filename_500_witness :
    Main.ask_ai emptyNameReq sampleMainEnv =
      Except.error ⟨500, "AI処理中にエラーが発生しました: 400: 無効なファイル名です"⟩ :=
  main_ask_ai_invalid_filename_500 emptyNameReq sampleMainEnv [generalMode] "general"
    generalMode "." "answer" rfl rfl rfl rfl (by decide) rfl

end Synapsis
